import Mathlib

/-!
Shallow embedding of `src/app1.py` (`process_data`), the reconciliation
pipeline of the repository: it reads a master order table, two payment
workbooks ("same month" / "next month", each with an `Order Payments`
sheet and an optional `Ads Cost` sheet) and a cost table, pivots the
settlement amounts per `Sub Order No`, left-merges them onto the order
table, attaches a status and a unit cost, and computes aggregate stats
including a profit/loss figure.

Spreadsheet cells are modelled by `Cell` (a number, a string, or an
empty/NaN cell); `pd.to_numeric(_, errors='coerce')` is modelled by
`toNumeric`, with `parseNumString` playing the role of the numeric
string parser (sign, digits, at most one decimal point — no thousands
separators, exactly as `pd.to_numeric` behaves).
-/

namespace App1

/-- A spreadsheet cell as pandas sees it: a numeric value, a string, or
an empty cell (NaN). -/
inductive Cell where
  | num (q : Rat)
  | str (s : String)
  | empty
  deriving DecidableEq, Repr

/-- Whitespace as `str.strip` / `String.trim` see it. -/
def isWs (c : Char) : Bool :=
  c = ' ' || c = '\t' || c = '\n' || c = '\r'

/-- Strip whitespace from both ends of a character list (the semantics of
Python's `str.strip()` / pandas `.str.strip()`). -/
def trimChars (l : List Char) : List Char :=
  ((l.dropWhile isWs).reverse.dropWhile isWs).reverse

/-- Split a character list at every '.' (the pieces of a decimal literal). -/
def splitDot : List Char → List (List Char)
  | [] => [[]]
  | c :: cs =>
      if c = '.' then [] :: splitDot cs
      else
        match splitDot cs with
        | [] => [[c]]
        | p :: ps => (c :: p) :: ps

/-- Value of a list of decimal digit characters. -/
def digitsVal (l : List Char) : Nat :=
  l.foldl (fun a c => 10 * a + (c.toNat - 48)) 0

/-- All characters are decimal digits. -/
def allDigits (l : List Char) : Bool :=
  l.all (fun c => c.isDigit)

/-- Parse an unsigned decimal literal: digits with at most one decimal
point and at least one digit overall.  Anything else (in particular a
thousands separator such as in "1,234.50") fails. -/
def parseBody (l : List Char) : Option Rat :=
  match splitDot l with
  | [a] =>
      if 0 < a.length && allDigits a then
        some ((digitsVal a : Nat) : Rat)
      else none
  | [a, b] =>
      if 0 < a.length + b.length && allDigits a && allDigits b then
        some (((digitsVal (a ++ b) : Nat) : Rat) / ((10 : Rat) ^ b.length))
      else none
  | _ => none

/-- Parse an optionally signed decimal literal. -/
def parseNumChars : List Char → Option Rat
  | '-' :: rest => (parseBody rest).map (fun q => -q)
  | '+' :: rest => parseBody rest
  | l => parseBody l

/-- Numeric parse of a string the way `pd.to_numeric` accepts it:
optional surrounding whitespace, optional sign, plain decimal literal. -/
def parseNumString (s : String) : Option Rat :=
  parseNumChars (trimChars s.toList)

/-- `pd.to_numeric(cell, errors='coerce')`: numbers pass through, strings
are parsed, everything unparseable becomes NaN (`none`). -/
def toNumeric : Cell → Option Rat
  | Cell.num q => some q
  | Cell.str s => parseNumString s
  | Cell.empty => none

/-- `pd.to_numeric(cell, errors='coerce').fillna(0)`. -/
def toNumericFill0 (c : Cell) : Rat :=
  (toNumeric c).getD 0

/-- A row of the master order table (`orders.csv`), restricted to the
columns the pipeline keeps: `Sub Order No`, `SKU`, `Quantity`. -/
structure OrderRow where
  subOrderNo : String
  sku : String
  quantity : Cell
  deriving DecidableEq, Repr

/-- A row of an `Order Payments` sheet after the column standardisation
(`Sub Order No`, `Live Order Status`, `Final Settlement Amount`). -/
structure PayRow where
  subOrderNo : String
  status : Cell
  settlement : Cell
  deriving DecidableEq, Repr

/-- A row of the cost table: its first two columns, read as
`SKU_Lookup` (already `astype(str)`) and `Cost_Value`. -/
structure CostRow where
  sku : String
  cost : Rat
  deriving DecidableEq, Repr

/-- `prepare_for_pivot` applied to the rows with a given `Sub Order No`
and summed: the grouped sum of coerced settlement amounts. -/
def sumAmtFor (rows : List PayRow) (oid : String) : Rat :=
  ((rows.filter (fun r => r.subOrderNo == oid)).map
    (fun r => toNumericFill0 r.settlement)).sum

/-- The pivot table `pd.pivot_table(..., index=['Sub Order No'], aggfunc='sum')`
looked up at `oid` after the `how='left'` merge: `some` (the group sum)
when the id occurs in the sheet, `none` (NaN) otherwise. -/
def pivotTotal (rows : List PayRow) (oid : String) : Option Rat :=
  if rows.any (fun r => r.subOrderNo == oid) then some (sumAmtFor rows oid)
  else none

/-- `drop_duplicates(subset=['Sub Order No'], keep='first')`. -/
def dropDupFirstAux (seen : List String) : List PayRow → List PayRow
  | [] => []
  | r :: rs =>
      if seen.contains r.subOrderNo then dropDupFirstAux seen rs
      else r :: dropDupFirstAux (r.subOrderNo :: seen) rs

/-- `drop_duplicates(subset=['Sub Order No'], keep='first')` on a sheet. -/
def dropDupFirst (rows : List PayRow) : List PayRow :=
  dropDupFirstAux [] rows

/-- The `how='left'` merge with the (key-unique) status lookup table:
the status of the unique row carrying `oid`, NaN when absent. -/
def lookupStatus (lookup : List PayRow) (oid : String) : Option Cell :=
  (lookup.find? (fun r => r.subOrderNo == oid)).map (fun r => r.status)

/-- `df['status'].str.strip().isin(['Delivered', 'Exchanged'])`: true only
for a string cell whose stripped value is exactly one of the two literals
(case-sensitive); NaN and non-string cells give `False`. -/
def statusHit : Option Cell → Bool
  | some (Cell.str s) =>
      trimChars s.toList == "Delivered".toList || trimChars s.toList == "Exchanged".toList
  | _ => false

/-- The `how='left'` merge of one order row against the cost table
(`left_on='SKU', right_on='SKU_Lookup'`): one output per matching cost
row, or a single NaN (`none`) cost when the SKU is absent. -/
def matchedCosts (table : List CostRow) (sku : String) : List (Option Rat) :=
  match table.filter (fun c => c.sku == sku) with
  | [] => [none]
  | m => m.map (fun c => some c.cost)

/-- A row of the final reconciled table (`df_orders_final`). -/
structure ReconRow where
  subOrderNo : String
  sku : String
  quantity : Rat
  samePay : Option Rat
  nextPay : Option Rat
  total : Rat
  status : Option Cell
  cost : Rat
  actualCost : Rat
  packagingCost : Rat
  deriving DecidableEq, Repr

/-- The reconciled row(s) an order row of the master table produces:
quantity coerced with `fillna(0)`; `same month pay` / `next month pay`
from the two pivots; `total` as their NaN-skipping row sum; status from
the keep-first-deduplicated concatenation of both sheets; `cost` by
`np.where(statusHit, Cost_Value, 0)` followed by `fillna(0)`;
`actual cost = cost * Quantity`; the flat packaging cost on every row. -/
def rowsForOrder (dfSame dfNext : List PayRow) (dfCost : List CostRow)
    (packagingFee : Rat) (o : OrderRow) : List ReconRow :=
  let qty := toNumericFill0 o.quantity
  let sp := pivotTotal dfSame o.subOrderNo
  let np2 := pivotTotal dfNext o.subOrderNo
  let tot := sp.getD 0 + np2.getD 0
  let st := lookupStatus (dropDupFirst (dfSame ++ dfNext)) o.subOrderNo
  (matchedCosts dfCost o.sku).map (fun cv =>
    let cost := if statusHit st then cv.getD 0 else 0
    { subOrderNo := o.subOrderNo, sku := o.sku, quantity := qty,
      samePay := sp, nextPay := np2, total := tot, status := st,
      cost := cost, actualCost := cost * qty, packagingCost := packagingFee })

/-- `pd.to_numeric(df_ads.iloc[:, 0], errors='coerce').sum()` for an
`Ads Cost` sheet, with `none` standing for "reading the sheet raised":
the `except` branch sets the sum to 0. -/
def adsSum : Option (List Cell) → Rat
  | none => 0
  | some cells => (cells.map toNumericFill0).sum

/-- The `stats` dictionary returned by `process_data`. -/
structure Stats where
  totalPayments : Rat
  totalCost : Rat
  totalActualCost : Rat
  totalPackaging : Rat
  sameAdsSum : Rat
  nextAdsSum : Rat
  miscCost : Rat
  profitLoss : Rat
  deriving DecidableEq, Repr

/-- The pair `(df_orders_final, stats)` returned by `process_data`. -/
structure RunResult where
  rows : List ReconRow
  stats : Stats
  deriving DecidableEq, Repr

/-- The whole of `process_data`: builds the reconciled table row by row
from the master order table (no deduplication of the master table), then
the aggregate stats, with
`profit = total_payments - total_actual_cost - total_packaging - abs(same_ads_sum)`. -/
def process_data (dfOrders : List OrderRow) (dfSame dfNext : List PayRow)
    (dfCost : List CostRow) (adsSame adsNext : Option (List Cell))
    (packagingFee miscCost : Rat) : RunResult :=
  let rows := dfOrders.flatMap (rowsForOrder dfSame dfNext dfCost packagingFee)
  let totalPayments := (rows.map (fun r => r.total)).sum
  let totalCost := (rows.map (fun r => r.cost)).sum
  let totalActualCost := (rows.map (fun r => r.actualCost)).sum
  let totalPackaging := (rows.map (fun r => r.packagingCost)).sum
  let sa := adsSum adsSame
  let na := adsSum adsNext
  { rows := rows,
    stats :=
      { totalPayments := totalPayments, totalCost := totalCost,
        totalActualCost := totalActualCost, totalPackaging := totalPackaging,
        sameAdsSum := sa, nextAdsSum := na, miscCost := miscCost,
        profitLoss := totalPayments - totalActualCost - totalPackaging - |sa| } }

/-- The total coerced settlement amount of the rows whose order id lies
in a given id set (used to state the conservation law). -/
def sumAmtIn (rows : List PayRow) (oids : List String) : Rat :=
  ((rows.filter (fun r => oids.contains r.subOrderNo)).map
    (fun r => toNumericFill0 r.settlement)).sum

/-! ## Basic lemmas about the aggregation -/

theorem sumAmtFor_cons (p : PayRow) (rows : List PayRow) (oid : String) :
    sumAmtFor (p :: rows) oid =
      (if p.subOrderNo = oid then toNumericFill0 p.settlement else 0)
        + sumAmtFor rows oid := by
  by_cases h : p.subOrderNo = oid <;> simp [sumAmtFor, List.filter_cons, h]

theorem sumAmtFor_nil (oid : String) : sumAmtFor [] oid = 0 := rfl

theorem pivotTotal_getD (rows : List PayRow) (oid : String) :
    (pivotTotal rows oid).getD 0 = sumAmtFor rows oid := by
  unfold pivotTotal
  split
  · rfl
  · next h =>
    have hf : rows.filter (fun r => r.subOrderNo == oid) = [] := by
      rw [List.filter_eq_nil_iff]
      intro a ha hb
      exact h (List.any_eq_true.mpr ⟨a, ha, hb⟩)
    simp [sumAmtFor, hf]

theorem pivotTotal_eq_none (rows : List PayRow) (oid : String)
    (h : ∀ p ∈ rows, p.subOrderNo ≠ oid) : pivotTotal rows oid = none := by
  unfold pivotTotal
  rw [if_neg]
  intro hc
  obtain ⟨p, hp, hb⟩ := List.any_eq_true.mp hc
  exact h p hp (by simpa using hb)

theorem mem_rowsForOrder (dfSame dfNext : List PayRow) (dfCost : List CostRow)
    (fee : Rat) (o : OrderRow) (r : ReconRow)
    (hr : r ∈ rowsForOrder dfSame dfNext dfCost fee o) :
    ∃ cv ∈ matchedCosts dfCost o.sku,
      r = { subOrderNo := o.subOrderNo, sku := o.sku,
            quantity := toNumericFill0 o.quantity,
            samePay := pivotTotal dfSame o.subOrderNo,
            nextPay := pivotTotal dfNext o.subOrderNo,
            total := (pivotTotal dfSame o.subOrderNo).getD 0
                       + (pivotTotal dfNext o.subOrderNo).getD 0,
            status := lookupStatus (dropDupFirst (dfSame ++ dfNext)) o.subOrderNo,
            cost := if statusHit (lookupStatus (dropDupFirst (dfSame ++ dfNext)) o.subOrderNo)
                    then cv.getD 0 else 0,
            actualCost := (if statusHit (lookupStatus (dropDupFirst (dfSame ++ dfNext)) o.subOrderNo)
                           then cv.getD 0 else 0) * toNumericFill0 o.quantity,
            packagingCost := fee } := by
  simp only [rowsForOrder, List.mem_map] at hr
  obtain ⟨cv, hcv, heq⟩ := hr
  exact ⟨cv, hcv, heq.symm⟩

theorem process_data_rows (dfOrders : List OrderRow) (dfSame dfNext : List PayRow)
    (dfCost : List CostRow) (adsSame adsNext : Option (List Cell))
    (packagingFee miscCost : Rat) :
    (process_data dfOrders dfSame dfNext dfCost adsSame adsNext packagingFee miscCost).rows
      = dfOrders.flatMap (rowsForOrder dfSame dfNext dfCost packagingFee) := rfl

theorem mem_process_rows (dfOrders : List OrderRow) (dfSame dfNext : List PayRow)
    (dfCost : List CostRow) (adsSame adsNext : Option (List Cell))
    (packagingFee miscCost : Rat) (r : ReconRow)
    (hr : r ∈ (process_data dfOrders dfSame dfNext dfCost adsSame adsNext
                packagingFee miscCost).rows) :
    ∃ o ∈ dfOrders, r ∈ rowsForOrder dfSame dfNext dfCost packagingFee o := by
  rw [process_data_rows] at hr
  exact List.mem_flatMap.mp hr

/-! ## Keep-first deduplication and the status lookup -/

theorem find?_dropDupFirstAux (rows : List PayRow) (seen : List String) (oid : String)
    (h : seen.contains oid = false) :
    (dropDupFirstAux seen rows).find? (fun r => r.subOrderNo == oid)
      = rows.find? (fun r => r.subOrderNo == oid) := by
  induction rows generalizing seen with
  | nil => rfl
  | cons r rs ih =>
      by_cases hs : seen.contains r.subOrderNo
      · have hne : (r.subOrderNo == oid) = false := by
          rw [beq_eq_false_iff_ne]
          intro he
          rw [he] at hs
          rw [h] at hs
          exact Bool.false_ne_true hs
        rw [dropDupFirstAux, if_pos hs, ih seen h, List.find?_cons, hne]
      · by_cases he : r.subOrderNo == oid
        · rw [dropDupFirstAux, if_neg hs, List.find?_cons, he, List.find?_cons, he]
        · have h2 : (r.subOrderNo :: seen).contains oid = false := by
            simp only [List.contains_cons, Bool.or_eq_false_iff]
            constructor
            · rw [beq_eq_false_iff_ne]
              intro he2
              rw [he2] at he
              simp at he
            · exact h
          rw [dropDupFirstAux, if_neg hs, List.find?_cons,
            eq_false_of_ne_true he, ih _ h2, List.find?_cons, eq_false_of_ne_true he]

theorem lookupStatus_dropDupFirst (rows : List PayRow) (oid : String) :
    lookupStatus (dropDupFirst rows) oid
      = (rows.find? (fun r => r.subOrderNo == oid)).map (fun r => r.status) := by
  unfold lookupStatus dropDupFirst
  rw [find?_dropDupFirstAux rows [] oid rfl]

/-! ## Summation helpers -/

theorem sum_map_addf {α : Type} (f g : α → Rat) (l : List α) :
    (l.map (fun x => f x + g x)).sum = (l.map f).sum + (l.map g).sum := by
  induction l with
  | nil => simp
  | cons x xs ih => simp [ih]; ring

theorem sum_map_flatMapf {α β : Type} (f : β → Rat) (g : α → List β) (l : List α) :
    ((l.flatMap g).map f).sum = (l.map (fun x => ((g x).map f).sum)).sum := by
  induction l with
  | nil => rfl
  | cons x xs ih => simp [List.flatMap_cons, List.map_append, List.sum_append, ih]

theorem sumAmtIn_cons (p : PayRow) (rows : List PayRow) (oids : List String) :
    sumAmtIn (p :: rows) oids =
      (if p.subOrderNo ∈ oids then toNumericFill0 p.settlement else 0)
        + sumAmtIn rows oids := by
  by_cases h : p.subOrderNo ∈ oids <;> simp [sumAmtIn, List.filter_cons, h]

theorem sum_ite_of_not_mem (xs : List String) (k : String) (a : Rat)
    (h : k ∉ xs) :
    (xs.map (fun oid => if k = oid then a else 0)).sum = 0 := by
  induction xs with
  | nil => rfl
  | cons x l ih =>
      have hx : ¬ k = x := fun he => h (he ▸ List.mem_cons_self x l)
      have hl : k ∉ l := fun he => h (List.mem_cons_of_mem x he)
      simp [hx, ih hl]

theorem sum_ite_point (oids : List String) (k : String) (a : Rat) (h : oids.Nodup) :
    (oids.map (fun oid => if k = oid then a else 0)).sum
      = if k ∈ oids then a else 0 := by
  induction oids with
  | nil => simp
  | cons x xs ih =>
      obtain ⟨hx, hxs⟩ := List.nodup_cons.mp h
      by_cases he : k = x
      · subst he
        simp [sum_ite_of_not_mem xs k a hx]
      · simp [he, ih hxs]

theorem sum_map_sumAmtFor (rows : List PayRow) (oids : List String) (h : oids.Nodup) :
    (oids.map (fun oid => sumAmtFor rows oid)).sum = sumAmtIn rows oids := by
  induction rows with
  | nil =>
      rw [List.sum_eq_zero]
      · rfl
      · intro x hx
        obtain ⟨oid, _, rfl⟩ := List.mem_map.mp hx
        rfl
  | cons p rs ih =>
      have h1 : (oids.map (fun oid => sumAmtFor (p :: rs) oid)).sum
          = (oids.map (fun oid =>
              (if p.subOrderNo = oid then toNumericFill0 p.settlement else 0)
                + sumAmtFor rs oid)).sum := by
        congr 1
        exact List.map_congr_left (fun oid _ => sumAmtFor_cons p rs oid)
      rw [h1, sum_map_addf, sum_ite_point oids p.subOrderNo _ h, ih, sumAmtIn_cons]

/-! ## The cost merge under a key-unique cost table -/

theorem filter_sku_of_nodup (table : List CostRow) (s : String)
    (h : (table.map (fun c => c.sku)).Nodup) :
    table.filter (fun c => c.sku == s) = []
      ∨ ∃ c : CostRow, table.filter (fun c => c.sku == s) = [c] := by
  induction table with
  | nil => exact Or.inl rfl
  | cons c cs ih =>
      rw [List.map_cons, List.nodup_cons] at h
      obtain ⟨hc, hcs⟩ := h
      rw [List.filter_cons]
      by_cases he : c.sku = s
      · have hnil : cs.filter (fun x => x.sku == s) = [] := by
          rw [List.filter_eq_nil_iff]
          intro x hx hb
          apply hc
          have hm : x.sku ∈ cs.map (fun c => c.sku) := List.mem_map.mpr ⟨x, hx, rfl⟩
          have hxs : x.sku = s := by simpa using hb
          rwa [hxs, ← he] at hm
        right
        exact ⟨c, by simp [he, hnil]⟩
      · rw [if_neg (by simp [he])]
        exact ih hcs

theorem matchedCosts_singleton (table : List CostRow) (s : String)
    (h : (table.map (fun c => c.sku)).Nodup) :
    ∃ cv : Option Rat, matchedCosts table s = [cv] := by
  rcases filter_sku_of_nodup table s h with hf | ⟨c, hf⟩
  · exact ⟨none, by simp [matchedCosts, hf]⟩
  · exact ⟨some c.cost, by simp [matchedCosts, hf]⟩

theorem rowsForOrder_singleton (dfSame dfNext : List PayRow) (dfCost : List CostRow)
    (fee : Rat) (o : OrderRow) (h : (dfCost.map (fun c => c.sku)).Nodup) :
    ∃ cv : Option Rat,
      rowsForOrder dfSame dfNext dfCost fee o =
        [{ subOrderNo := o.subOrderNo, sku := o.sku,
           quantity := toNumericFill0 o.quantity,
           samePay := pivotTotal dfSame o.subOrderNo,
           nextPay := pivotTotal dfNext o.subOrderNo,
           total := (pivotTotal dfSame o.subOrderNo).getD 0
                      + (pivotTotal dfNext o.subOrderNo).getD 0,
           status := lookupStatus (dropDupFirst (dfSame ++ dfNext)) o.subOrderNo,
           cost := if statusHit (lookupStatus (dropDupFirst (dfSame ++ dfNext)) o.subOrderNo)
                   then cv.getD 0 else 0,
           actualCost := (if statusHit (lookupStatus (dropDupFirst (dfSame ++ dfNext)) o.subOrderNo)
                          then cv.getD 0 else 0) * toNumericFill0 o.quantity,
           packagingCost := fee }] := by
  obtain ⟨cv, hcv⟩ := matchedCosts_singleton dfCost o.sku h
  exact ⟨cv, by simp only [rowsForOrder, hcv, List.map_cons, List.map_nil]⟩

/-! ## Claim C1 — conservation of settlement totals -/

/-- Claim C1 as stated is false on the code: the reconciled table is built
by a left merge onto the master order table, so a payment entry whose
order id does not occur in the master table is dropped from the `total`
column.  Here a single payment of 5 for the unknown id "X" is lost: the
sum of totals is 0, not 5. -/
theorem claim_C1_counterexample :
    ¬ ((((process_data [] [⟨"X", Cell.str "Delivered", Cell.num 5⟩] [] []
            (some []) (some []) 0 0).rows.map (fun r => r.total)).sum)
        = ((([⟨"X", Cell.str "Delivered", Cell.num 5⟩] : List PayRow)
              ++ ([] : List PayRow)).map
            (fun r => toNumericFill0 r.settlement)).sum) := by
  norm_num [process_data, rowsForOrder, matchedCosts, pivotTotal, sumAmtFor,
    sumAmtIn, lookupStatus, dropDupFirst, dropDupFirstAux, statusHit,
    toNumericFill0, toNumeric, parseNumString, parseNumChars, parseBody,
    splitDot, trimChars, isWs, digitsVal, allDigits, adsSum,
      List.dropWhile_cons, List.filter_cons, List.find?_cons, List.any_cons, List.all_cons]

/-- Claim C1, amended: when the master table's order ids are pairwise
distinct and the cost table has at most one row per SKU value, the sum of
the per-order `total` column equals the sum of all coerced settlement
amounts of those payment rows (of both sheets) whose order id occurs in
the master table; entries sharing an order id are fully summed, never
overwritten.  Entries whose order id is absent from the master table are
dropped, and duplicate master ids or duplicate cost-table SKUs would
duplicate rows of the table. -/
theorem claim_C1_conservation (dfOrders : List OrderRow) (dfSame dfNext : List PayRow)
    (dfCost : List CostRow) (adsSame adsNext : Option (List Cell)) (fee misc : Rat)
    (hids : (dfOrders.map (fun o => o.subOrderNo)).Nodup)
    (hcost : (dfCost.map (fun c => c.sku)).Nodup) :
    (((process_data dfOrders dfSame dfNext dfCost adsSame adsNext fee misc).rows.map
        (fun r => r.total)).sum)
      = sumAmtIn dfSame (dfOrders.map (fun o => o.subOrderNo))
          + sumAmtIn dfNext (dfOrders.map (fun o => o.subOrderNo)) := by
  rw [process_data_rows, sum_map_flatMapf]
  have hrow : ∀ o ∈ dfOrders,
      ((rowsForOrder dfSame dfNext dfCost fee o).map (fun r => r.total)).sum
        = sumAmtFor dfSame o.subOrderNo + sumAmtFor dfNext o.subOrderNo := by
    intro o _
    obtain ⟨cv, hcv⟩ := rowsForOrder_singleton dfSame dfNext dfCost fee o hcost
    rw [hcv]
    simp [pivotTotal_getD]
  rw [List.map_congr_left hrow]
  have hsplit : dfOrders.map (fun o =>
        sumAmtFor dfSame o.subOrderNo + sumAmtFor dfNext o.subOrderNo)
      = dfOrders.map (fun o =>
          (fun oid => sumAmtFor dfSame oid) o.subOrderNo
            + (fun oid => sumAmtFor dfNext oid) o.subOrderNo) := rfl
  rw [hsplit, sum_map_addf]
  have h1 : dfOrders.map (fun o => (fun oid => sumAmtFor dfSame oid) o.subOrderNo)
      = (dfOrders.map (fun o => o.subOrderNo)).map (fun oid => sumAmtFor dfSame oid) := by
    rw [List.map_map]
    rfl
  have h2 : dfOrders.map (fun o => (fun oid => sumAmtFor dfNext oid) o.subOrderNo)
      = (dfOrders.map (fun o => o.subOrderNo)).map (fun oid => sumAmtFor dfNext oid) := by
    rw [List.map_map]
    rfl
  rw [h1, h2, sum_map_sumAmtFor dfSame _ hids, sum_map_sumAmtFor dfNext _ hids]

/-- Witness for C1: one order "A", settlements 2 and 3 in the same-month
sheet and 4 in the next-month sheet; the totals column sums to 9, the sum
of all three amounts. -/
theorem claim_C1_conservation_witness :
    (((process_data [⟨"A", "K", Cell.num 1⟩]
          [⟨"A", Cell.str "Delivered", Cell.num 2⟩, ⟨"A", Cell.str "Delivered", Cell.num 3⟩]
          [⟨"A", Cell.str "Delivered", Cell.num 4⟩]
          [⟨"K", 50⟩] (some []) (some []) 5 0).rows.map (fun r => r.total)).sum)
      = sumAmtIn [⟨"A", Cell.str "Delivered", Cell.num 2⟩, ⟨"A", Cell.str "Delivered", Cell.num 3⟩]
          (([⟨"A", "K", Cell.num 1⟩] : List OrderRow).map (fun o => o.subOrderNo))
          + sumAmtIn [⟨"A", Cell.str "Delivered", Cell.num 4⟩]
              (([⟨"A", "K", Cell.num 1⟩] : List OrderRow).map (fun o => o.subOrderNo)) :=
  claim_C1_conservation _ _ _ _ _ _ _ _ (by simp) (by simp)

/-! ## Claim C2 — one output row per master row -/

/-- Claim C2 as stated is false on the code: the master order table is
never deduplicated (`drop_duplicates` is only applied to the status
lookup), so a master table with the order id "A" twice yields two
reconciled rows for "A", not one. -/
theorem claim_C2_counterexample :
    ¬ ((process_data [⟨"A", "s", Cell.num 1⟩, ⟨"A", "s", Cell.num 1⟩] [] [] []
          (some []) (some []) 0 0).rows.length = 1) := by
  decide

/-- Claim C2, amended: when the cost table has at most one row per SKU
value, the reconciled output has exactly one row per row of the master
table, in master-table order, carrying that row's order id — duplicate
master order ids therefore yield duplicate output rows rather than being
collapsed — and any output row whose order id matches no payment entry of
either sheet has settlement total 0. -/
theorem claim_C2_one_row_per_master_row (dfOrders : List OrderRow)
    (dfSame dfNext : List PayRow) (dfCost : List CostRow)
    (adsSame adsNext : Option (List Cell)) (fee misc : Rat)
    (hcost : (dfCost.map (fun c => c.sku)).Nodup) :
    ((process_data dfOrders dfSame dfNext dfCost adsSame adsNext fee misc).rows.map
        (fun r => r.subOrderNo)
      = dfOrders.map (fun o => o.subOrderNo))
    ∧ ∀ r ∈ (process_data dfOrders dfSame dfNext dfCost adsSame adsNext fee misc).rows,
        (∀ p ∈ dfSame ++ dfNext, p.subOrderNo ≠ r.subOrderNo) → r.total = 0 := by
  constructor
  · rw [process_data_rows]
    induction dfOrders with
    | nil => rfl
    | cons o os ih =>
        obtain ⟨cv, hcv⟩ := rowsForOrder_singleton dfSame dfNext dfCost fee o hcost
        rw [List.flatMap_cons, List.map_append, hcv, ih]
        rfl
  · intro r hr hnp
    obtain ⟨o, ho, hro⟩ := mem_process_rows _ _ _ _ _ _ _ _ r hr
    obtain ⟨cv, hcvm, rfl⟩ := mem_rowsForOrder _ _ _ _ _ _ hro
    have hs : pivotTotal dfSame o.subOrderNo = none :=
      pivotTotal_eq_none _ _ (fun p hp => hnp p (List.mem_append_left _ hp))
    have hn : pivotTotal dfNext o.subOrderNo = none :=
      pivotTotal_eq_none _ _ (fun p hp => hnp p (List.mem_append_right _ hp))
    simp [hs, hn]

/-- Witness for C2: two distinct orders "A" and "B" give exactly the
output id column ["A", "B"]. -/
theorem claim_C2_one_row_per_master_row_witness :
    ((process_data [⟨"A", "sk", Cell.num 1⟩, ⟨"B", "sk", Cell.num 2⟩]
        [⟨"A", Cell.str "Delivered", Cell.num 7⟩] [] [] (some []) (some []) 3 0).rows.map
          (fun r => r.subOrderNo))
      = ["A", "B"] :=
  (claim_C2_one_row_per_master_row
      [⟨"A", "sk", Cell.num 1⟩, ⟨"B", "sk", Cell.num 2⟩]
      [⟨"A", Cell.str "Delivered", Cell.num 7⟩] [] [] (some []) (some []) 3 0
      (by simp)).1

/-! ## Claim C3 — the aggregate profit/loss formula -/

/-- Claim C3 as stated is false on the code: the miscellaneous cost is
carried into the stats dictionary but never subtracted from the
profit/loss.  With every input empty and a miscellaneous cost of 100 the
code returns profit 0, while the claimed formula yields −100. -/
theorem claim_C3_counterexample :
    ¬ ((process_data [] [] [] [] (some []) (some []) 0 100).stats.profitLoss
        = (process_data [] [] [] [] (some []) (some []) 0 100).stats.totalPayments
          - (process_data [] [] [] [] (some []) (some []) 0 100).stats.totalActualCost
          - (process_data [] [] [] [] (some []) (some []) 0 100).stats.totalPackaging
          - |(process_data [] [] [] [] (some []) (some []) 0 100).stats.sameAdsSum|
          - (process_data [] [] [] [] (some []) (some []) 0 100).stats.miscCost) := by
  norm_num [process_data, adsSum, abs_zero]

/-- Claim C3, amended: the aggregate profit/loss equals total settlement
minus total product (actual) cost minus total packaging cost minus the
absolute value of the same-month ads-cost column sum; the miscellaneous
cost and the next-month ads sum are reported but never subtracted — the
profit/loss is unchanged under any change of the miscellaneous cost or of
the next-month ads sheet. -/
theorem claim_C3_profit (dfOrders : List OrderRow) (dfSame dfNext : List PayRow)
    (dfCost : List CostRow) (adsSame adsNext adsN2 : Option (List Cell))
    (fee m1 m2 : Rat) :
    ((process_data dfOrders dfSame dfNext dfCost adsSame adsNext fee m1).stats.profitLoss
        = (process_data dfOrders dfSame dfNext dfCost adsSame adsN2 fee m2).stats.profitLoss)
    ∧ ((process_data dfOrders dfSame dfNext dfCost adsSame adsNext fee m1).stats.profitLoss
        = ((process_data dfOrders dfSame dfNext dfCost adsSame adsNext fee m1).rows.map
              (fun r => r.total)).sum
          - ((process_data dfOrders dfSame dfNext dfCost adsSame adsNext fee m1).rows.map
              (fun r => r.actualCost)).sum
          - ((process_data dfOrders dfSame dfNext dfCost adsSame adsNext fee m1).rows.map
              (fun r => r.packagingCost)).sum
          - |adsSum adsSame|) :=
  ⟨rfl, rfl⟩

/-! ## Claim C4 — packaging cost is unconditional; cancelled orders bear no product cost -/

/-- Claim C4 as stated is false on the code: the packaging cost column is
assigned the flat fee unconditionally, so an order whose status is
"Cancelled" still gets packaging cost 5, not 0. -/
theorem claim_C4_counterexample :
    ((process_data [⟨"A", "sk", Cell.num 1⟩] [⟨"A", Cell.str "Cancelled", Cell.num 0⟩] [] []
        (some []) (some []) 5 0).rows.map (fun r => (r.status, r.packagingCost)))
      = [(some (Cell.str "Cancelled"), (5 : Rat))] ∧ (5 : Rat) ≠ 0 := by
  constructor
  · simp [process_data, rowsForOrder, matchedCosts, pivotTotal, sumAmtFor,
      lookupStatus, dropDupFirst, dropDupFirstAux, statusHit,
      toNumericFill0, toNumeric, parseNumString, parseNumChars, parseBody,
      splitDot, trimChars, isWs, digitsVal, allDigits,
      List.dropWhile_cons, List.filter_cons, List.find?_cons, List.any_cons,
      List.all_cons]
  · norm_num

/-- Claim C4, amended: every reconciled row receives the flat packaging
fee as its packaging cost, regardless of status (cancelled orders
included); a row whose status strips to exactly "Cancelled" does get
product cost 0 (the status is not in the cost-bearing set), both per unit
and after multiplying by the quantity. -/
theorem claim_C4_packaging (dfOrders : List OrderRow) (dfSame dfNext : List PayRow)
    (dfCost : List CostRow) (adsSame adsNext : Option (List Cell)) (fee misc : Rat) :
    ∀ r ∈ (process_data dfOrders dfSame dfNext dfCost adsSame adsNext fee misc).rows,
      r.packagingCost = fee
      ∧ (∀ s, r.status = some (Cell.str s) → trimChars s.toList = "Cancelled".toList →
          r.cost = 0 ∧ r.actualCost = 0) := by
  intro r hr
  obtain ⟨o, ho, hro⟩ := mem_process_rows _ _ _ _ _ _ _ _ r hr
  obtain ⟨cv, hcvm, rfl⟩ := mem_rowsForOrder _ _ _ _ _ _ hro
  refine ⟨rfl, ?_⟩
  intro s hs htrim
  have hs2 : lookupStatus (dropDupFirst (dfSame ++ dfNext)) o.subOrderNo
      = some (Cell.str s) := hs
  have hhit : statusHit (some (Cell.str s)) = false := by
    simp only [statusHit, htrim]
    decide
  constructor
  · show (if statusHit (lookupStatus (dropDupFirst (dfSame ++ dfNext)) o.subOrderNo)
        then cv.getD 0 else 0) = 0
    rw [hs2, hhit]
    simp
  · show (if statusHit (lookupStatus (dropDupFirst (dfSame ++ dfNext)) o.subOrderNo)
        then cv.getD 0 else 0) * toNumericFill0 o.quantity = 0
    rw [hs2, hhit]
    simp

/-- Witness for C4: a cancelled order (status " Cancelled ", settling 9)
with packaging fee 5 yields packaging cost 5 and product cost 0. -/
theorem claim_C4_packaging_witness :
    (⟨"A", "sk", 2, some 9, none, 9, some (Cell.str " Cancelled "), 0, 0, 5⟩
        : ReconRow).packagingCost = 5
    ∧ (⟨"A", "sk", 2, some 9, none, 9, some (Cell.str " Cancelled "), 0, 0, 5⟩
        : ReconRow).cost = 0 :=
  ⟨(claim_C4_packaging [⟨"A", "sk", Cell.num 2⟩] [⟨"A", Cell.str " Cancelled ", Cell.num 9⟩]
      [] [] (some []) (some []) 5 0 _
      (by simp [process_data, rowsForOrder, matchedCosts, pivotTotal, sumAmtFor,
        lookupStatus, dropDupFirst, dropDupFirstAux, statusHit,
        toNumericFill0, toNumeric, parseNumString, parseNumChars, parseBody,
        splitDot, trimChars, isWs, digitsVal, allDigits,
        List.dropWhile_cons, List.filter_cons, List.find?_cons, List.any_cons,
        List.all_cons])).1,
   ((claim_C4_packaging [⟨"A", "sk", Cell.num 2⟩] [⟨"A", Cell.str " Cancelled ", Cell.num 9⟩]
      [] [] (some []) (some []) 5 0 _
      (by simp [process_data, rowsForOrder, matchedCosts, pivotTotal, sumAmtFor,
        lookupStatus, dropDupFirst, dropDupFirstAux, statusHit,
        toNumericFill0, toNumeric, parseNumString, parseNumChars, parseBody,
        splitDot, trimChars, isWs, digitsVal, allDigits,
        List.dropWhile_cons, List.filter_cons, List.find?_cons, List.any_cons,
        List.all_cons])).2
     " Cancelled " rfl (by decide)).1⟩

/-! ## Claim C5 — the cost-bearing status test -/

theorem statusHit_eq_true_iff (st : Option Cell) :
    statusHit st = true ↔ ∃ s, st = some (Cell.str s)
      ∧ (trimChars s.toList = "Delivered".toList
          ∨ trimChars s.toList = "Exchanged".toList) := by
  cases st with
  | none => simp [statusHit]
  | some c =>
      cases c with
      | num q => simp [statusHit]
      | str s => simp [statusHit]
      | empty => simp [statusHit]

/-- Claim C5 as stated is false on the code: the status match
`.str.strip().isin(['Delivered', 'Exchanged'])` is case-sensitive (no
uppercasing, no stripping of non-alphanumerics), so the status
"delivered" earns product cost 0 while "Delivered" earns 50 × 2 = 100 on
the same order and cost table. -/
theorem claim_C5_counterexample :
    ((process_data [⟨"A", "K", Cell.num 2⟩] [⟨"A", Cell.str "delivered", Cell.num 0⟩] []
        [⟨"K", 50⟩] (some []) (some []) 0 0).rows.map (fun r => r.actualCost)) = [0]
    ∧ ((process_data [⟨"A", "K", Cell.num 2⟩] [⟨"A", Cell.str "Delivered", Cell.num 0⟩] []
        [⟨"K", 50⟩] (some []) (some []) 0 0).rows.map (fun r => r.actualCost)) = [100]
    ∧ (0 : Rat) ≠ 100 :=
  ⟨by simp [process_data, rowsForOrder, matchedCosts, pivotTotal, sumAmtFor,
      lookupStatus, dropDupFirst, dropDupFirstAux, statusHit,
      toNumericFill0, toNumeric, parseNumString, parseNumChars, parseBody,
      splitDot, trimChars, isWs, digitsVal, allDigits,
      List.dropWhile_cons, List.filter_cons, List.find?_cons, List.any_cons,
      List.all_cons],
   by simp [process_data, rowsForOrder, matchedCosts, pivotTotal, sumAmtFor,
      lookupStatus, dropDupFirst, dropDupFirstAux, statusHit,
      toNumericFill0, toNumeric, parseNumString, parseNumChars, parseBody,
      splitDot, trimChars, isWs, digitsVal, allDigits,
      List.dropWhile_cons, List.filter_cons, List.find?_cons, List.any_cons,
      List.all_cons] <;> norm_num,
   by norm_num⟩

/-- Claim C5, amended: product cost is attributed by a case-sensitive
match of the whitespace-stripped raw status against exactly "Delivered"
or "Exchanged" (lost-in-transit statuses and other casings do not
qualify): every reconciled row has `actual cost = cost × quantity`; when
the stripped status is one of the two literals the unit cost is the
row's cost-table match (0 on a missing match), and otherwise the unit
cost is 0. -/
theorem claim_C5_cost_status (dfOrders : List OrderRow) (dfSame dfNext : List PayRow)
    (dfCost : List CostRow) (adsSame adsNext : Option (List Cell)) (fee misc : Rat) :
    ∀ r ∈ (process_data dfOrders dfSame dfNext dfCost adsSame adsNext fee misc).rows,
      r.actualCost = r.cost * r.quantity
      ∧ ((∃ s, r.status = some (Cell.str s)
            ∧ (trimChars s.toList = "Delivered".toList
                ∨ trimChars s.toList = "Exchanged".toList)) →
          ∃ cv ∈ matchedCosts dfCost r.sku, r.cost = cv.getD 0)
      ∧ ((¬ ∃ s, r.status = some (Cell.str s)
            ∧ (trimChars s.toList = "Delivered".toList
                ∨ trimChars s.toList = "Exchanged".toList)) →
          r.cost = 0) := by
  intro r hr
  obtain ⟨o, ho, hro⟩ := mem_process_rows _ _ _ _ _ _ _ _ r hr
  obtain ⟨cv, hcvm, rfl⟩ := mem_rowsForOrder _ _ _ _ _ _ hro
  refine ⟨rfl, ?_, ?_⟩
  · rintro ⟨s, hs, hor⟩
    have hs2 : lookupStatus (dropDupFirst (dfSame ++ dfNext)) o.subOrderNo
        = some (Cell.str s) := hs
    have hhit : statusHit (some (Cell.str s)) = true := by
      simp only [statusHit]
      rcases hor with h | h <;> rw [h] <;> decide
    refine ⟨cv, hcvm, ?_⟩
    show (if statusHit (lookupStatus (dropDupFirst (dfSame ++ dfNext)) o.subOrderNo)
        then cv.getD 0 else 0) = cv.getD 0
    rw [hs2, hhit]
    simp
  · intro hne
    by_cases hhit : statusHit (lookupStatus (dropDupFirst (dfSame ++ dfNext)) o.subOrderNo) = true
    · exact absurd ((statusHit_eq_true_iff _).mp hhit) hne
    · rw [Bool.not_eq_true] at hhit
      show (if statusHit (lookupStatus (dropDupFirst (dfSame ++ dfNext)) o.subOrderNo)
          then cv.getD 0 else 0) = 0
      rw [hhit]
      simp

/-- Witness for C5: a "Delivered" order with SKU "K" (unit cost 50) and
quantity 2 satisfies `actual cost = cost × quantity` on its reconciled
row (50 × 2 = 100). -/
theorem claim_C5_cost_status_witness :
    (⟨"A", "K", 2, some 7, none, 7, some (Cell.str "Delivered"), 50, 100, 0⟩
        : ReconRow).actualCost
      = (⟨"A", "K", 2, some 7, none, 7, some (Cell.str "Delivered"), 50, 100, 0⟩
          : ReconRow).cost
        * (⟨"A", "K", 2, some 7, none, 7, some (Cell.str "Delivered"), 50, 100, 0⟩
            : ReconRow).quantity :=
  (claim_C5_cost_status [⟨"A", "K", Cell.num 2⟩] [⟨"A", Cell.str "Delivered", Cell.num 7⟩]
      [] [⟨"K", 50⟩] (some []) (some []) 0 0 _
      (by simp [process_data, rowsForOrder, matchedCosts, pivotTotal, sumAmtFor,
        lookupStatus, dropDupFirst, dropDupFirstAux, statusHit,
        toNumericFill0, toNumeric, parseNumString, parseNumChars, parseBody,
        splitDot, trimChars, isWs, digitsVal, allDigits,
        List.dropWhile_cons, List.filter_cons, List.find?_cons, List.any_cons,
        List.all_cons] <;> norm_num)).1

/-! ## Claim C6 — the unit-cost lookup -/

/-- Claim C6 as stated is false on the code: the SKU merge is an exact
case-sensitive string match (`astype(str)` on both sides, no lowercasing
or trimming), and a missing SKU yields cost 0 via `fillna(0)`, not a
configurable default.  The cost table key "a1" does not match the order
SKU "A1" (product cost 0), while the exact key "A1" does (product cost
50). -/
theorem claim_C6_counterexample :
    ((process_data [⟨"A", "A1", Cell.num 1⟩] [⟨"A", Cell.str "Delivered", Cell.num 0⟩] []
        [⟨"a1", 50⟩] (some []) (some []) 0 0).rows.map (fun r => r.actualCost)) = [0]
    ∧ ((process_data [⟨"A", "A1", Cell.num 1⟩] [⟨"A", Cell.str "Delivered", Cell.num 0⟩] []
        [⟨"A1", 50⟩] (some []) (some []) 0 0).rows.map (fun r => r.actualCost)) = [50]
    ∧ (0 : Rat) ≠ 50 :=
  ⟨by simp [process_data, rowsForOrder, matchedCosts, pivotTotal, sumAmtFor,
      lookupStatus, dropDupFirst, dropDupFirstAux, statusHit,
      toNumericFill0, toNumeric, parseNumString, parseNumChars, parseBody,
      splitDot, trimChars, isWs, digitsVal, allDigits,
      List.dropWhile_cons, List.filter_cons, List.find?_cons, List.any_cons,
      List.all_cons],
   by simp [process_data, rowsForOrder, matchedCosts, pivotTotal, sumAmtFor,
      lookupStatus, dropDupFirst, dropDupFirstAux, statusHit,
      toNumericFill0, toNumeric, parseNumString, parseNumChars, parseBody,
      splitDot, trimChars, isWs, digitsVal, allDigits,
      List.dropWhile_cons, List.filter_cons, List.find?_cons, List.any_cons,
      List.all_cons],
   by norm_num⟩

/-- Claim C6, amended: the unit-cost lookup matches the raw order SKU
string against the raw cost-table key by exact (case- and
whitespace-sensitive) equality; an order whose SKU matches no cost-table
row gets product cost 0 (an implicit zero via `fillna(0)`, there is no
configured default), and when exactly one cost row matches and the
stripped status is cost-bearing, the row's unit cost is that row's cost
value. -/
theorem claim_C6_sku_lookup (dfOrders : List OrderRow) (dfSame dfNext : List PayRow)
    (dfCost : List CostRow) (adsSame adsNext : Option (List Cell)) (fee misc : Rat) :
    ∀ r ∈ (process_data dfOrders dfSame dfNext dfCost adsSame adsNext fee misc).rows,
      ((∀ c ∈ dfCost, c.sku ≠ r.sku) → r.cost = 0 ∧ r.actualCost = 0)
      ∧ (∀ c : CostRow, dfCost.filter (fun x => x.sku == r.sku) = [c] →
          ∀ s, r.status = some (Cell.str s) →
            (trimChars s.toList = "Delivered".toList
              ∨ trimChars s.toList = "Exchanged".toList) →
            r.cost = c.cost) := by
  intro r hr
  obtain ⟨o, ho, hro⟩ := mem_process_rows _ _ _ _ _ _ _ _ r hr
  obtain ⟨cv, hcvm, rfl⟩ := mem_rowsForOrder _ _ _ _ _ _ hro
  constructor
  · intro habs
    have hf : dfCost.filter (fun x => x.sku == o.sku) = [] := by
      rw [List.filter_eq_nil_iff]
      intro c hc hb
      exact habs c hc (by simpa using hb)
    have hmc : matchedCosts dfCost o.sku = [none] := by
      simp [matchedCosts, hf]
    rw [hmc] at hcvm
    rw [List.mem_singleton] at hcvm
    subst hcvm
    have hc0 : (if statusHit (lookupStatus (dropDupFirst (dfSame ++ dfNext)) o.subOrderNo)
        then (none : Option Rat).getD 0 else 0) = 0 := by
      split <;> rfl
    constructor
    · exact hc0
    · show (if statusHit (lookupStatus (dropDupFirst (dfSame ++ dfNext)) o.subOrderNo)
          then (none : Option Rat).getD 0 else 0) * toNumericFill0 o.quantity = 0
      rw [hc0, zero_mul]
  · intro c hfc s hs hor
    have hfc2 : dfCost.filter (fun x => x.sku == o.sku) = [c] := hfc
    have hmc : matchedCosts dfCost o.sku = [some c.cost] := by
      simp [matchedCosts, hfc2]
    rw [hmc] at hcvm
    rw [List.mem_singleton] at hcvm
    subst hcvm
    have hs2 : lookupStatus (dropDupFirst (dfSame ++ dfNext)) o.subOrderNo
        = some (Cell.str s) := hs
    have hhit : statusHit (some (Cell.str s)) = true := by
      simp only [statusHit]
      rcases hor with h | h <;> rw [h] <;> decide
    show (if statusHit (lookupStatus (dropDupFirst (dfSame ++ dfNext)) o.subOrderNo)
        then (some c.cost).getD 0 else 0) = c.cost
    rw [hs2, hhit]
    simp

/-- Witness for C6: an order whose SKU "K" is absent from the (empty)
cost table gets product cost 0. -/
theorem claim_C6_sku_lookup_witness :
    (⟨"A", "K", 1, none, none, 0, none, 0, 0, 2⟩ : ReconRow).cost = 0
    ∧ (⟨"A", "K", 1, none, none, 0, none, 0, 0, 2⟩ : ReconRow).actualCost = 0 :=
  (claim_C6_sku_lookup [⟨"A", "K", Cell.num 1⟩] [] [] [] (some []) (some []) 2 0 _
      (by simp [process_data, rowsForOrder, matchedCosts, pivotTotal, sumAmtFor,
        lookupStatus, dropDupFirst, dropDupFirstAux, statusHit,
        toNumericFill0, toNumeric, parseNumString, parseNumChars, parseBody,
        splitDot, trimChars, isWs, digitsVal, allDigits,
        List.dropWhile_cons, List.filter_cons, List.find?_cons, List.any_cons,
        List.all_cons])).1
    (by simp)

/-! ## Claim C7 — status precedence among duplicate order ids -/

/-- Claim C7 as stated is false on the code: the status lookup keeps the
FIRST occurrence (`drop_duplicates(..., keep='first')` on the
concatenation same-month ++ next-month), not the last.  With "Shipped"
in the same-month sheet and "Delivered" in the next-month sheet, the
reconciled status is "Shipped". -/
theorem claim_C7_counterexample :
    ((process_data [⟨"A", "sk", Cell.num 1⟩] [⟨"A", Cell.str "Shipped", Cell.num 1⟩]
        [⟨"A", Cell.str "Delivered", Cell.num 2⟩] [] (some []) (some []) 0 0).rows.map
          (fun r => r.status))
      = [some (Cell.str "Shipped")]
    ∧ some (Cell.str "Shipped") ≠ some (Cell.str "Delivered") :=
  ⟨by simp [process_data, rowsForOrder, matchedCosts, pivotTotal, sumAmtFor,
      lookupStatus, dropDupFirst, dropDupFirstAux, statusHit,
      toNumericFill0, toNumeric, parseNumString, parseNumChars, parseBody,
      splitDot, trimChars, isWs, digitsVal, allDigits,
      List.dropWhile_cons, List.filter_cons, List.find?_cons, List.any_cons,
      List.all_cons],
   by decide⟩

/-- Claim C7, amended: with no timestamp available, the status assigned
to an order id occurring in several payment entries is that of the entry
encountered FIRST in file/sheet processing order (same-month sheet
before next-month sheet; earlier entries win), while the settlement
total still sums every entry of both sheets. -/
theorem claim_C7_status_first (dfOrders : List OrderRow) (dfSame dfNext : List PayRow)
    (dfCost : List CostRow) (adsSame adsNext : Option (List Cell)) (fee misc : Rat) :
    ∀ r ∈ (process_data dfOrders dfSame dfNext dfCost adsSame adsNext fee misc).rows,
      r.status = ((dfSame ++ dfNext).find? (fun p => p.subOrderNo == r.subOrderNo)).map
          (fun p => p.status)
      ∧ r.total = sumAmtFor dfSame r.subOrderNo + sumAmtFor dfNext r.subOrderNo := by
  intro r hr
  obtain ⟨o, ho, hro⟩ := mem_process_rows _ _ _ _ _ _ _ _ r hr
  obtain ⟨cv, hcvm, rfl⟩ := mem_rowsForOrder _ _ _ _ _ _ hro
  constructor
  · show lookupStatus (dropDupFirst (dfSame ++ dfNext)) o.subOrderNo
        = ((dfSame ++ dfNext).find? (fun p => p.subOrderNo == o.subOrderNo)).map
            (fun p => p.status)
    rw [lookupStatus_dropDupFirst]
  · show (pivotTotal dfSame o.subOrderNo).getD 0 + (pivotTotal dfNext o.subOrderNo).getD 0
        = sumAmtFor dfSame o.subOrderNo + sumAmtFor dfNext o.subOrderNo
    rw [pivotTotal_getD, pivotTotal_getD]

/-- Witness for C7: order "A" paid in both sheets ("Shipped" first,
"Delivered" second) gets the first status, "Shipped". -/
theorem claim_C7_status_first_witness :
    (⟨"A", "sk", 1, some 1, some 2, 3, some (Cell.str "Shipped"), 0, 0, 0⟩
        : ReconRow).status
      = ((([⟨"A", Cell.str "Shipped", Cell.num 1⟩] : List PayRow)
            ++ ([⟨"A", Cell.str "Delivered", Cell.num 2⟩] : List PayRow)).find?
          (fun p => p.subOrderNo == (⟨"A", "sk", 1, some 1, some 2, 3,
              some (Cell.str "Shipped"), 0, 0, 0⟩ : ReconRow).subOrderNo)).map
          (fun p => p.status) :=
  (claim_C7_status_first [⟨"A", "sk", Cell.num 1⟩] [⟨"A", Cell.str "Shipped", Cell.num 1⟩]
      [⟨"A", Cell.str "Delivered", Cell.num 2⟩] [] (some []) (some []) 0 0 _
      (by simp [process_data, rowsForOrder, matchedCosts, pivotTotal, sumAmtFor,
        lookupStatus, dropDupFirst, dropDupFirstAux, statusHit,
        toNumericFill0, toNumeric, parseNumString, parseNumChars, parseBody,
        splitDot, trimChars, isWs, digitsVal, allDigits,
        List.dropWhile_cons, List.filter_cons, List.find?_cons, List.any_cons,
        List.all_cons] <;> norm_num)).1

/-! ## Claim C8 — default quantity for unparseable cells -/

/-- Claim C8 as stated is false on the code: `pd.to_numeric(...,
errors='coerce').fillna(0)` turns a missing or non-numeric quantity into
0, not 1; an order with quantity "two", status "Delivered" and unit cost
50 gets quantity 0 and product cost 0 (a quantity of 1 would give 50). -/
theorem claim_C8_counterexample :
    ((process_data [⟨"A", "K", Cell.str "two"⟩] [⟨"A", Cell.str "Delivered", Cell.num 0⟩] []
        [⟨"K", 50⟩] (some []) (some []) 0 0).rows.map
          (fun r => (r.quantity, r.actualCost)))
      = [((0 : Rat), (0 : Rat))]
    ∧ (0 : Rat) ≠ 1 :=
  ⟨by simp [process_data, rowsForOrder, matchedCosts, pivotTotal, sumAmtFor,
      lookupStatus, dropDupFirst, dropDupFirstAux, statusHit,
      toNumericFill0, toNumeric, parseNumString, parseNumChars, parseBody,
      splitDot, trimChars, isWs, digitsVal, allDigits,
      List.dropWhile_cons, List.filter_cons, List.find?_cons, List.any_cons,
      List.all_cons],
   by norm_num⟩

/-- Claim C8, amended: an order row whose quantity cell is missing or
non-numeric is processed with quantity 0 (hence product cost 0), and the
rows it produces are exactly the ones appearing in the reconciled
output. -/
theorem claim_C8_quantity_default (dfOrders : List OrderRow) (dfSame dfNext : List PayRow)
    (dfCost : List CostRow) (adsSame adsNext : Option (List Cell)) (fee misc : Rat)
    (o : OrderRow) (ho : o ∈ dfOrders) (hq : toNumeric o.quantity = none) :
    ∀ r ∈ rowsForOrder dfSame dfNext dfCost fee o,
      (r.quantity = 0 ∧ r.actualCost = 0)
      ∧ r ∈ (process_data dfOrders dfSame dfNext dfCost adsSame adsNext fee misc).rows := by
  intro r hr
  have hq0 : toNumericFill0 o.quantity = 0 := by
    rw [toNumericFill0, hq]
    rfl
  obtain ⟨cv, hcvm, rfl⟩ := mem_rowsForOrder _ _ _ _ _ _ hr
  refine ⟨⟨hq0, ?_⟩, ?_⟩
  · show (if statusHit (lookupStatus (dropDupFirst (dfSame ++ dfNext)) o.subOrderNo)
        then cv.getD 0 else 0) * toNumericFill0 o.quantity = 0
    rw [hq0, mul_zero]
  · rw [process_data_rows]
    exact List.mem_flatMap.mpr ⟨o, ho, hr⟩

/-- Witness for C8: an order with the unparseable quantity "two" yields
the reconciled row with quantity 0 and product cost 0, and that row is in
the output. -/
theorem claim_C8_quantity_default_witness :
    (((⟨"A", "K", 0, some 7, none, 7, some (Cell.str "Delivered"), 50, 0, 0⟩
          : ReconRow).quantity = 0
      ∧ (⟨"A", "K", 0, some 7, none, 7, some (Cell.str "Delivered"), 50, 0, 0⟩
          : ReconRow).actualCost = 0)
    ∧ (⟨"A", "K", 0, some 7, none, 7, some (Cell.str "Delivered"), 50, 0, 0⟩ : ReconRow)
        ∈ (process_data [⟨"A", "K", Cell.str "two"⟩]
            [⟨"A", Cell.str "Delivered", Cell.num 7⟩] [] [⟨"K", 50⟩]
            (some []) (some []) 0 0).rows) :=
  claim_C8_quantity_default [⟨"A", "K", Cell.str "two"⟩]
    [⟨"A", Cell.str "Delivered", Cell.num 7⟩] [] [⟨"K", 50⟩] (some []) (some []) 0 0
    ⟨"A", "K", Cell.str "two"⟩ (by decide) (by decide) _
    (by simp [rowsForOrder, matchedCosts, pivotTotal, sumAmtFor,
      lookupStatus, dropDupFirst, dropDupFirstAux, statusHit,
      toNumericFill0, toNumeric, parseNumString, parseNumChars, parseBody,
      splitDot, trimChars, isWs, digitsVal, allDigits,
      List.dropWhile_cons, List.filter_cons, List.find?_cons, List.any_cons,
      List.all_cons])

/-! ## Claim C9 — settlement amount coercion -/

/-- Claim C9 as stated is false on the code: `pd.to_numeric` does not
accept thousands separators, so the settlement string "1,234.50" is
coerced to NaN and contributes 0 to the order's total instead of its
numeric value 1234.50. -/
theorem claim_C9_counterexample :
    ((process_data [⟨"A", "K", Cell.num 1⟩] [⟨"A", Cell.str "Delivered", Cell.str "1,234.50"⟩]
        [] [] (some []) (some []) 0 0).rows.map (fun r => r.total)) = [0]
    ∧ (0 : Rat) ≠ 2469 / 2 :=
  ⟨by simp [process_data, rowsForOrder, matchedCosts, pivotTotal, sumAmtFor,
      lookupStatus, dropDupFirst, dropDupFirstAux, statusHit,
      toNumericFill0, toNumeric, parseNumString, parseNumChars, parseBody,
      splitDot, trimChars, isWs, digitsVal, allDigits,
      List.dropWhile_cons, List.filter_cons, List.find?_cons, List.any_cons,
      List.all_cons],
   by norm_num⟩

/-- Claim C9, amended: settlement coercion never fails the run (the
pipeline is total) and every unparseable settlement value — including a
currency string with thousands separators such as "1,234.50" — silently
contributes 0: prepending a payment row with an unparseable settlement
to the same-month sheet leaves the sum of all per-order settlement
totals unchanged. -/
theorem claim_C9_coercion (dfOrders : List OrderRow) (dfSame dfNext : List PayRow)
    (dfCost : List CostRow) (adsSame adsNext : Option (List Cell)) (fee misc : Rat)
    (p : PayRow) (hp : toNumeric p.settlement = none) :
    (((process_data dfOrders (p :: dfSame) dfNext dfCost adsSame adsNext fee misc).rows.map
        (fun r => r.total)).sum)
      = (((process_data dfOrders dfSame dfNext dfCost adsSame adsNext fee misc).rows.map
          (fun r => r.total)).sum) := by
  rw [process_data_rows, process_data_rows, sum_map_flatMapf, sum_map_flatMapf]
  congr 1
  apply List.map_congr_left
  intro o _
  have hmap : ∀ S N : List PayRow,
      ((rowsForOrder S N dfCost fee o).map (fun r => r.total))
        = (matchedCosts dfCost o.sku).map (fun _ =>
            (pivotTotal S o.subOrderNo).getD 0 + (pivotTotal N o.subOrderNo).getD 0) := by
    intro S N
    simp only [rowsForOrder, List.map_map]
    apply List.map_congr_left
    intro cv _
    rfl
  have htot : (pivotTotal (p :: dfSame) o.subOrderNo).getD 0
      = (pivotTotal dfSame o.subOrderNo).getD 0 := by
    rw [pivotTotal_getD, pivotTotal_getD, sumAmtFor_cons]
    have h0 : toNumericFill0 p.settlement = 0 := by
      rw [toNumericFill0, hp]
      rfl
    rw [h0]
    split <;> ring
  rw [hmap, hmap, htot]

/-- Witness for C9: prepending the payment row ("A", status "x",
settlement "1,234.50") — an unparseable amount — to the same-month sheet
leaves the sum of totals unchanged. -/
theorem claim_C9_coercion_witness :
    (((process_data [⟨"A", "K", Cell.num 1⟩]
          (⟨"A", Cell.str "x", Cell.str "1,234.50"⟩ :: [⟨"A", Cell.str "Delivered", Cell.num 7⟩])
          [] [] (some []) (some []) 0 0).rows.map (fun r => r.total)).sum)
      = (((process_data [⟨"A", "K", Cell.num 1⟩]
            [⟨"A", Cell.str "Delivered", Cell.num 7⟩]
            [] [] (some []) (some []) 0 0).rows.map (fun r => r.total)).sum) :=
  claim_C9_coercion [⟨"A", "K", Cell.num 1⟩] [⟨"A", Cell.str "Delivered", Cell.num 7⟩]
    [] [] (some []) (some []) 0 0 ⟨"A", Cell.str "x", Cell.str "1,234.50"⟩ (by decide)

/-! ## Claim C10 — a failing Ads Cost sheet never fails the run -/

/-- Claim C10: when reading the `Ads Cost` sheet of either workbook
raises (modelled by the sheet input `none`), the run still completes with
that workbook's ads sum taken as 0 (the `except` branch), and the
per-order table and every other aggregate field are unchanged: the rows
and the payment/cost/packaging aggregates are identical to those of any
run with the same non-ads inputs, and with the same-month ads sheet
failed the profit/loss is exactly payments − actual cost − packaging. -/
theorem claim_C10_ads_failure (dfOrders : List OrderRow) (dfSame dfNext : List PayRow)
    (dfCost : List CostRow) (adsSame adsNext : Option (List Cell)) (fee misc : Rat) :
    ((process_data dfOrders dfSame dfNext dfCost none adsNext fee misc).rows
        = (process_data dfOrders dfSame dfNext dfCost adsSame adsNext fee misc).rows)
    ∧ (process_data dfOrders dfSame dfNext dfCost none adsNext fee misc).stats.sameAdsSum = 0
    ∧ (process_data dfOrders dfSame dfNext dfCost adsSame none fee misc).stats.nextAdsSum = 0
    ∧ ((process_data dfOrders dfSame dfNext dfCost none adsNext fee misc).stats.totalPayments
        = (process_data dfOrders dfSame dfNext dfCost adsSame adsNext fee misc).stats.totalPayments)
    ∧ ((process_data dfOrders dfSame dfNext dfCost none adsNext fee misc).stats.totalCost
        = (process_data dfOrders dfSame dfNext dfCost adsSame adsNext fee misc).stats.totalCost)
    ∧ ((process_data dfOrders dfSame dfNext dfCost none adsNext fee misc).stats.totalActualCost
        = (process_data dfOrders dfSame dfNext dfCost adsSame adsNext fee misc).stats.totalActualCost)
    ∧ ((process_data dfOrders dfSame dfNext dfCost none adsNext fee misc).stats.totalPackaging
        = (process_data dfOrders dfSame dfNext dfCost adsSame adsNext fee misc).stats.totalPackaging)
    ∧ ((process_data dfOrders dfSame dfNext dfCost none adsNext fee misc).stats.profitLoss
        = (process_data dfOrders dfSame dfNext dfCost none adsNext fee misc).stats.totalPayments
          - (process_data dfOrders dfSame dfNext dfCost none adsNext fee misc).stats.totalActualCost
          - (process_data dfOrders dfSame dfNext dfCost none adsNext fee misc).stats.totalPackaging) := by
  refine ⟨rfl, rfl, rfl, rfl, rfl, rfl, rfl, ?_⟩
  show (((dfOrders.flatMap (rowsForOrder dfSame dfNext dfCost fee)).map
        (fun r => r.total)).sum)
      - (((dfOrders.flatMap (rowsForOrder dfSame dfNext dfCost fee)).map
          (fun r => r.actualCost)).sum)
      - (((dfOrders.flatMap (rowsForOrder dfSame dfNext dfCost fee)).map
          (fun r => r.packagingCost)).sum)
      - |adsSum none| = _
  rw [show adsSum none = 0 from rfl, abs_zero, sub_zero]
  rfl

end App1
